import Mathlib

/-!
Verification development for the What2Watch football fixture aggregation and
enrichment pipeline (backend/apps/content/services).  The Python services are
shallowly embedded as executable Lean definitions: pure helpers become Lean
functions, the Django cache and the upstream HTTP clients become explicit
parameters (the transport is a function from requests to optional responses,
the cache is an association list that is threaded through and whose writes are
recorded together with their TTLs).
-/

namespace W2W

/-! ## Python string comparison

Python compares `str` values lexicographically by Unicode code point; the
services sort match lists with `list.sort(key=lambda x: x['kickoff']['utc'])`,
which compares the key strings this way. -/

/-- Lexicographic (by code point) less-or-equal on character lists. -/
def charListLe : List Char → List Char → Bool
  | [], _ => true
  | _ :: _, [] => false
  | a :: as, b :: bs =>
    if a.toNat < b.toNat then true
    else if b.toNat < a.toNat then false
    else charListLe as bs

/-- Python string less-or-equal (lexicographic by code point). -/
def strLe (a b : String) : Bool := charListLe a.data b.data

theorem charListLe_total : ∀ a b, charListLe a b = true ∨ charListLe b a = true := by
  intro a
  induction a with
  | nil => intro b; left; rfl
  | cons x xs ih =>
    intro b
    cases b with
    | nil => right; rfl
    | cons y ys =>
      by_cases hxy : x.toNat < y.toNat
      · left; simp [charListLe, hxy]
      · by_cases hyx : y.toNat < x.toNat
        · right; simp [charListLe, hyx]
        · rcases ih ys with h | h
          · left; simp [charListLe, hxy, hyx, h]
          · right; simp [charListLe, hxy, hyx, h]

theorem charListLe_trans :
    ∀ a b c, charListLe a b = true → charListLe b c = true → charListLe a c = true := by
  intro a
  induction a with
  | nil => intro b c _ _; rfl
  | cons x xs ih =>
    intro b c hab hbc
    cases b with
    | nil => simp [charListLe] at hab
    | cons y ys =>
      cases c with
      | nil => simp [charListLe] at hbc
      | cons z zs =>
        simp only [charListLe] at hab hbc ⊢
        by_cases hxy : x.toNat < y.toNat
        · simp only [hxy, if_true] at hab
          by_cases hyz : y.toNat < z.toNat
          · have hxz : x.toNat < z.toNat := Nat.lt_trans hxy hyz
            simp [hxz]
          · by_cases hzy : z.toNat < y.toNat
            · simp [hyz, hzy] at hbc
            · have hyz' : y.toNat = z.toNat := Nat.le_antisymm (Nat.le_of_not_lt hzy) (Nat.le_of_not_lt hyz)
              have hxz : x.toNat < z.toNat := hyz' ▸ hxy
              simp [hxz]
        · by_cases hyx : y.toNat < x.toNat
          · simp [hxy, hyx] at hab
          · have hxy' : x.toNat = y.toNat := Nat.le_antisymm (Nat.le_of_not_lt hyx) (Nat.le_of_not_lt hxy)
            simp only [hxy, hyx, if_false] at hab
            by_cases hyz : y.toNat < z.toNat
            · have hxz : x.toNat < z.toNat := hxy' ▸ hyz
              simp [hxz]
            · by_cases hzy : z.toNat < y.toNat
              · simp [hyz, hzy] at hbc
              · simp only [hyz, hzy, if_false] at hbc
                have hxz : ¬ x.toNat < z.toNat := by
                  rw [hxy']; exact hyz
                have hzx : ¬ z.toNat < x.toNat := by
                  rw [hxy']; exact hzy
                simp [hxz, hzx, ih ys zs hab hbc]

theorem strLe_total (a b : String) : strLe a b = true ∨ strLe b a = true :=
  charListLe_total a.data b.data

theorem strLe_trans {a b c : String} (h1 : strLe a b = true) (h2 : strLe b c = true) :
    strLe a c = true :=
  charListLe_trans a.data b.data c.data h1 h2

/-! ## Civil date arithmetic

Proleptic Gregorian calendar helpers used to model Python `datetime`
arithmetic (`timedelta` addition, `strftime`, weekday names) and the pytz
Europe/Stockholm DST rule (EU rule: DST between 01:00 UTC on the last Sunday
of March and 01:00 UTC on the last Sunday of October). -/

def isLeap (y : Nat) : Bool := (y % 4 == 0 && y % 100 != 0) || y % 400 == 0

def daysInMonth (y m : Nat) : Nat :=
  if m = 2 then (if isLeap y then 29 else 28)
  else if m = 4 ∨ m = 6 ∨ m = 9 ∨ m = 11 then 30
  else 31

/-- Serial day number of a civil date (Gregorian); the internal 400-year shift
keeps the arithmetic in `Nat` for all years ≥ 0 with a safety cushion. -/
def dayNumber (y m d : Nat) : Nat :=
  let ys := y + 400
  let yAdj := if m ≤ 2 then ys - 1 else ys
  let era := yAdj / 400
  let yoe := yAdj % 400
  let mp := (m + 9) % 12
  let doy := (153 * mp + 2) / 5 + (d - 1)
  let doe := yoe * 365 + yoe / 4 - yoe / 100 + doy
  era * 146097 + doe

/-- Inverse of `dayNumber`: civil date `(year, month, day)` of a serial day. -/
def civilFromDayNumber (n : Nat) : Nat × Nat × Nat :=
  let era := n / 146097
  let doe := n % 146097
  let yoe := (doe - doe / 1460 + doe / 36524 - doe / 146096) / 365
  let doy := doe - (365 * yoe + yoe / 4 - yoe / 100)
  let mp := (5 * doy + 2) / 153
  let d := doy - (153 * mp + 2) / 5 + 1
  let m := if mp < 10 then mp + 3 else mp - 9
  let y := yoe + era * 400 + (if m ≤ 2 then 1 else 0)
  (y - 400, m, d)

/-- Python `datetime` value.  `tzSecs` is the UTC offset in seconds carried by
`tzinfo` (`none` for a naive datetime). -/
structure DateTime where
  year : Nat
  month : Nat
  day : Nat
  hour : Nat
  minute : Nat
  second : Nat
  micro : Nat
  tzSecs : Option Int
deriving DecidableEq, Repr

/-- Wall-clock seconds of a datetime on the serial-day scale (ignores tz). -/
def wallSecs (dt : DateTime) : Nat :=
  dayNumber dt.year dt.month dt.day * 86400 + dt.hour * 3600 + dt.minute * 60 + dt.second

/-- Wall-clock microseconds; Python compares naive datetimes field by field,
which coincides with comparing this value. -/
def wallMicros (dt : DateTime) : Nat := wallSecs dt * 1000000 + dt.micro

/-- The absolute instant (seconds) an aware datetime denotes. -/
def instantSecs (dt : DateTime) : Int := (wallSecs dt : Int) - dt.tzSecs.getD 0

/-- Rebuild a datetime from wall-clock seconds. -/
def fromSecs (n : Nat) (micro : Nat) (tz : Option Int) : DateTime :=
  let rem := n % 86400
  let c := civilFromDayNumber (n / 86400)
  ⟨c.1, c.2.1, c.2.2, rem / 3600, rem % 3600 / 60, rem % 60, micro, tz⟩

def addSecs (dt : DateTime) (delta : Int) (tz : Option Int) : DateTime :=
  fromSecs ((wallSecs dt : Int) + delta).toNat dt.micro tz

/-- `datetime + timedelta(days=i)`. -/
def addDays (dt : DateTime) (i : Nat) : DateTime :=
  addSecs dt (86400 * (i : Int)) dt.tzSecs

/-- Weekday index of a civil date, with 0 = Sunday. -/
def weekdayIdx (y m d : Nat) : Nat := (dayNumber y m d + 3) % 7

def dayNames : List String :=
  ["Sunday", "Monday", "Tuesday", "Wednesday", "Thursday", "Friday", "Saturday"]

/-- Python `strftime` `%A` full weekday name. -/
def dayName (dt : DateTime) : String :=
  (dayNames.getD (weekdayIdx dt.year dt.month dt.day) "")

def pad2 (n : Nat) : String := if n < 10 then "0" ++ toString n else toString n

def pad4 (n : Nat) : String :=
  if n < 10 then "000" ++ toString n
  else if n < 100 then "00" ++ toString n
  else if n < 1000 then "0" ++ toString n
  else toString n

/-- `strftime('%Y-%m-%d')`. -/
def dateStr (dt : DateTime) : String :=
  pad4 dt.year ++ "-" ++ pad2 dt.month ++ "-" ++ pad2 dt.day

/-- `strftime('%H:%M')`. -/
def timeStr (dt : DateTime) : String := pad2 dt.hour ++ ":" ++ pad2 dt.minute

/-- Day of month of the last Sunday of month `m` in year `y`. -/
def lastSundayDay (y m : Nat) : Nat :=
  let last := daysInMonth y m
  last - weekdayIdx y m last

/-- Start of Europe/Stockholm DST for year `y` (seconds, UTC scale):
01:00 UTC on the last Sunday of March. -/
def dstStartSecs (y : Nat) : Nat := dayNumber y 3 (lastSundayDay y 3) * 86400 + 3600

/-- End of Europe/Stockholm DST for year `y`: 01:00 UTC on the last Sunday of
October. -/
def dstEndSecs (y : Nat) : Nat := dayNumber y 10 (lastSundayDay y 10) * 86400 + 3600

/-- Whether Europe/Stockholm DST is active at an absolute instant (seconds). -/
def isDstAtInstant (s : Int) : Bool :=
  if s < 0 then false
  else
    let n := s.toNat
    let y := (civilFromDayNumber (n / 86400)).1
    decide (dstStartSecs y ≤ n) && decide (n < dstEndSecs y)

/-- `astimezone(pytz.timezone('Europe/Stockholm'))` on an aware datetime. -/
def toStockholm (dt : DateTime) : DateTime :=
  let s := instantSecs dt
  let offset : Int := if isDstAtInstant s then 7200 else 3600
  fromSecs (s + offset).toNat dt.micro (some offset)

/-- `astimezone(pytz.UTC)` on an aware datetime. -/
def toUtcDt (dt : DateTime) : DateTime :=
  fromSecs (instantSecs dt).toNat dt.micro (some 0)

/-! ## TimeConverter (services/time_converter.py)

`TimeConverter._parse_utc_timestamp` tries four `strptime` formats and then
falls back to `datetime.fromisoformat` on the input with every `'Z'` replaced
by `'+00:00'`.  The `strptime` field matchers follow CPython's `_strptime`
regexes (`%Y` is exactly four digits; `%m`, `%d`, `%H`, `%M`, `%S` accept one
or two digits within their ranges, two-digit first), and the values are then
validated by the `datetime` constructor.  The fallback models CPython 3.10
`datetime.fromisoformat`. -/

def digitVal (c : Char) : Option Nat :=
  if c.isDigit then some (c.toNat - 48) else none

/-- Exactly four digits (CPython `%Y`). -/
def parse4 : List Char → Option (Nat × List Char)
  | a :: b :: c :: d :: rest =>
    match digitVal a, digitVal b, digitVal c, digitVal d with
    | some va, some vb, some vc, some vd => some (va * 1000 + vb * 100 + vc * 10 + vd, rest)
    | _, _, _, _ => none
  | _ => none

/-- One or two digits with the two-digit reading preferred, constrained to
`[lo, hi]` (the CPython `_strptime` alternation semantics for `%m`, `%d`,
`%H`, `%M`, `%S`). -/
def parseNum2 (lo hi : Nat) : List Char → Option (Nat × List Char)
  | a :: b :: rest =>
    match digitVal a, digitVal b with
    | some va, some vb =>
      let v2 := va * 10 + vb
      if lo ≤ v2 ∧ v2 ≤ hi then some (v2, rest)
      else if lo ≤ va ∧ va ≤ hi then some (va, b :: rest)
      else none
    | some va, none => if lo ≤ va ∧ va ≤ hi then some (va, b :: rest) else none
    | none, _ => none
  | [a] =>
    match digitVal a with
    | some va => if lo ≤ va ∧ va ≤ hi then some (va, []) else none
    | none => none
  | [] => none

def expectChar (c : Char) : List Char → Option (List Char)
  | x :: rest => if x = c then some rest else none
  | [] => none

/-- Exactly two digits (used by the `fromisoformat` model). -/
def exact2 : List Char → Option (Nat × List Char)
  | a :: b :: rest =>
    match digitVal a, digitVal b with
    | some va, some vb => some (va * 10 + vb, rest)
    | _, _ => none
  | _ => none

/-- The `datetime` constructor: validates every field, returning `none` where
CPython raises `ValueError`. -/
def mkValidDt (y m d h mi s micro : Nat) (tz : Option Int) : Option DateTime :=
  if 1 ≤ y ∧ y ≤ 9999 ∧ 1 ≤ m ∧ m ≤ 12 ∧ 1 ≤ d ∧ d ≤ daysInMonth y m ∧
      h ≤ 23 ∧ mi ≤ 59 ∧ s ≤ 59 ∧ micro ≤ 999999 then
    some ⟨y, m, d, h, mi, s, micro, tz⟩
  else none

/-- Shared body of the four `strptime` formats: `%Y-%m-%d` then `sep` then
`%H:%M:%S` followed by the literal `suffix`, matching the whole string. -/
def parseYmdHms (sep : Char) (suffix : List Char) (cs : List Char) : Option DateTime :=
  match parse4 cs with
  | none => none
  | some (y, cs) =>
    match expectChar '-' cs with
    | none => none
    | some cs =>
      match parseNum2 1 12 cs with
      | none => none
      | some (m, cs) =>
        match expectChar '-' cs with
        | none => none
        | some cs =>
          match parseNum2 1 31 cs with
          | none => none
          | some (d, cs) =>
            match expectChar sep cs with
            | none => none
            | some cs =>
              match parseNum2 0 23 cs with
              | none => none
              | some (h, cs) =>
                match expectChar ':' cs with
                | none => none
                | some cs =>
                  match parseNum2 0 59 cs with
                  | none => none
                  | some (mi, cs) =>
                    match expectChar ':' cs with
                    | none => none
                    | some cs =>
                      match parseNum2 0 61 cs with
                      | none => none
                      | some (s, rest) =>
                        if rest = suffix then mkValidDt y m d h mi s 0 none
                        else none

/-- `utc_timestamp.replace('Z', '+00:00')` (replaces every occurrence). -/
def replaceZ (s : String) : String :=
  ⟨s.data.foldr
    (fun c acc => if c = 'Z' then '+' :: '0' :: '0' :: ':' :: '0' :: '0' :: acc else c :: acc)
    []⟩

/-- Split the time portion at the first `'+'` or `'-'` (the timezone marker in
CPython's `fromisoformat` time parser); returns the part before it and, when
present, the sign (true = negative offset) and the part after it. -/
def splitTz : List Char → List Char × Option (Bool × List Char)
  | [] => ([], none)
  | c :: rest =>
    if c = '+' then ([], some (false, rest))
    else if c = '-' then ([], some (true, rest))
    else
      let r := splitTz rest
      (c :: r.1, r.2)

/-- Fraction part: a dot followed by exactly three or six digits, yielding
microseconds (CPython ≤ 3.10 `fromisoformat`). -/
def parseFrac : List Char → Option Nat
  | [] => some 0
  | '.' :: ds =>
    match ds with
    | [a, b, c] =>
      match digitVal a, digitVal b, digitVal c with
      | some va, some vb, some vc => some ((va * 100 + vb * 10 + vc) * 1000)
      | _, _, _ => none
    | [a, b, c, d, e, f] =>
      match digitVal a, digitVal b, digitVal c, digitVal d, digitVal e, digitVal f with
      | some va, some vb, some vc, some vd, some ve, some vf =>
        some (va * 100000 + vb * 10000 + vc * 1000 + vd * 100 + ve * 10 + vf)
      | _, _, _, _, _, _ => none
    | _ => none
  | _ => none

/-- `HH[:MM[:SS[.fff|.ffffff]]]` with two-digit fields, whole-part match. -/
def parseTimePart (cs : List Char) : Option (Nat × Nat × Nat × Nat) :=
  match exact2 cs with
  | none => none
  | some (h, cs) =>
    match cs with
    | [] => some (h, 0, 0, 0)
    | ':' :: cs =>
      match exact2 cs with
      | none => none
      | some (mi, cs) =>
        match cs with
        | [] => some (h, mi, 0, 0)
        | ':' :: cs =>
          match exact2 cs with
          | none => none
          | some (s, cs) =>
            match parseFrac cs with
            | none => none
            | some micro => some (h, mi, s, micro)
        | _ => none
    | _ => none

/-- Timezone offset `HH:MM[:SS[.ffffff]]` in seconds; an offset of a full day
or more makes the `timezone` constructor raise. -/
def parseTzPart (cs : List Char) : Option Nat :=
  match exact2 cs with
  | none => none
  | some (h, cs) =>
    match expectChar ':' cs with
    | none => none
    | some cs =>
      match exact2 cs with
      | none => none
      | some (mi, cs) =>
        match cs with
        | [] => if h * 3600 + mi * 60 < 86400 then some (h * 3600 + mi * 60) else none
        | ':' :: cs =>
          match exact2 cs with
          | none => none
          | some (s, cs) =>
            match parseFrac cs with
            | none => none
            | some _ =>
              if h * 3600 + mi * 60 + s < 86400 then some (h * 3600 + mi * 60 + s) else none
        | _ => none

/-- Model of CPython 3.10 `datetime.fromisoformat`. -/
def fromIsoFormat (s : String) : Option DateTime :=
  match parse4 s.data with
  | none => none
  | some (y, cs) =>
    match expectChar '-' cs with
    | none => none
    | some cs =>
      match exact2 cs with
      | none => none
      | some (m, cs) =>
        match expectChar '-' cs with
        | none => none
        | some cs =>
          match exact2 cs with
          | none => none
          | some (d, cs) =>
            match cs with
            | [] => mkValidDt y m d 0 0 0 0 none
            | _sep :: tcs =>
              let st := splitTz tcs
              match parseTimePart st.1 with
              | none => none
              | some (h, mi, sec, micro) =>
                match st.2 with
                | none => mkValidDt y m d h mi sec micro none
                | some (neg, tzcs) =>
                  match parseTzPart tzcs with
                  | none => none
                  | some off =>
                    mkValidDt y m d h mi sec micro
                      (some (if neg then -(off : Int) else (off : Int)))

namespace TimeConverter

/-- `TimeConverter._parse_utc_timestamp`: empty input is rejected, then the
four `strptime` formats are tried in order (each success is localized to UTC),
then the `fromisoformat` fallback on the `'Z'`-replaced string (naive results
are localized to UTC, aware results converted via `astimezone(UTC)`). -/
def parse_utc_timestamp (s : String) : Option DateTime :=
  if s = "" then none
  else
    match parseYmdHms 'T' ['Z'] s.data with
    | some dt => some { dt with tzSecs := some 0 }
    | none =>
      match parseYmdHms 'T' ['+', '0', '0', ':', '0', '0'] s.data with
      | some dt => some { dt with tzSecs := some 0 }
      | none =>
        match parseYmdHms 'T' [] s.data with
        | some dt => some { dt with tzSecs := some 0 }
        | none =>
          match parseYmdHms ' ' [] s.data with
          | some dt => some { dt with tzSecs := some 0 }
          | none =>
            match fromIsoFormat (replaceZ s) with
            | some dt =>
              match dt.tzSecs with
              | none => some { dt with tzSecs := some 0 }
              | some _ => some (toUtcDt dt)
            | none => none

/-- `TimeConverter.is_dst_active` on a timezone-aware datetime (the naive
branch, which localizes to Stockholm wall time, is unreached from
`utc_to_swedish_full`). -/
def is_dst_active (dt : DateTime) : Bool := isDstAtInstant (instantSecs dt)

/-- Result shape of `TimeConverter.utc_to_swedish_full` (the Python dict with
keys date, time, day_of_week, timezone; `date`/`day_of_week` are `None` on
parse failure). -/
structure SwedishTimeFields where
  date : Option String
  time : String
  day_of_week : Option String
  timezone : String
deriving DecidableEq, Repr

/-- `TimeConverter.utc_to_swedish_full`. -/
def utc_to_swedish_full (s : String) : SwedishTimeFields :=
  match parse_utc_timestamp s with
  | none => ⟨none, "00:00", none, "CET"⟩
  | some utcDt =>
    let sw := toStockholm utcDt
    let isDst := is_dst_active sw
    ⟨some (dateStr sw), timeStr sw, some (dayName sw), if isDst then "CEST" else "CET"⟩

/-- `TimeConverter.utc_to_swedish`. -/
def utc_to_swedish (s : String) : String :=
  match parse_utc_timestamp s with
  | none => "00:00"
  | some utcDt => timeStr (toStockholm utcDt)

end TimeConverter

/-! ## BroadcastService (services/broadcast_service.py) -/

namespace BroadcastService

/-- `BroadcastService.BROADCAST_MAPPINGS`. -/
def BROADCAST_MAPPINGS : List (Nat × List String) :=
  [(39, ["Sky Sports", "TNT Sports", "NOW TV"]),
   (140, ["Premier Sports", "LaLigaTV"]),
   (78, ["Sky Sports", "TNT Sports"]),
   (135, ["TNT Sports", "BT Sport"]),
   (61, ["TNT Sports", "beIN Sports"])]

def UNAVAILABLE_MESSAGE : String := "Broadcast info unavailable"

/-- `BroadcastService.get_broadcast_channels` (the `if channels:` truthiness
check means an empty mapped list would also fall back to the sentinel). -/
def get_broadcast_channels (league_id : Nat) : List String :=
  match BROADCAST_MAPPINGS.lookup league_id with
  | some channels => if channels.isEmpty then [UNAVAILABLE_MESSAGE] else channels
  | none => [UNAVAILABLE_MESSAGE]

theorem get_broadcast_channels_ne_nil (league_id : Nat) :
    get_broadcast_channels league_id ≠ [] := by
  unfold get_broadcast_channels
  match h : BROADCAST_MAPPINGS.lookup league_id with
  | none => simp
  | some channels =>
    simp only
    split
    · simp
    · rename_i hne
      intro hnil
      rw [hnil] at hne
      simp at hne

end BroadcastService

/-! ## Upstream fixture records and the enriched match shape

`RawFixture` captures exactly the fields the enrichment code reads from an
API-Football fixture object, each optional because the code only ever uses
defensive `.get` access (a missing intermediate dict yields `{}`, making all
leaf reads `None`/defaulted). -/

structure TeamRaw where
  id : Option Nat := none
  name : Option String := none
  logo : Option String := none
deriving DecidableEq, Repr

structure RawFixture where
  league_id : Option Nat := none
  league_name : Option String := none
  league_country : Option String := none
  league_logo : Option String := none
  fixture_id : Option Nat := none
  fixture_date : Option String := none
  status_short : Option String := none
  home : TeamRaw := {}
  away : TeamRaw := {}
  goals_home : Option Int := none
  goals_away : Option Int := none
deriving DecidableEq, Repr

structure LeagueOut where
  id : Nat
  name : String
  country : String
  logo : String
deriving DecidableEq, Repr

structure TeamOut where
  id : Option Nat
  name : String
  logo : String
deriving DecidableEq, Repr

structure KickoffOut where
  utc : String
  swedish_time : String
  swedish_date : Option String
  day_of_week : Option String
  timezone : String
deriving DecidableEq, Repr

structure ScoreOut where
  home : Option Int
  away : Option Int
deriving DecidableEq, Repr

/-- The canonical enriched match dict built by
`Top5LeaguesService._enrich_match_data`. -/
structure EnrichedMatch where
  id : Option Nat
  league : LeagueOut
  home_team : TeamOut
  away_team : TeamOut
  kickoff : KickoffOut
  status : String
  score : ScoreOut
  broadcast_channels : List String
deriving DecidableEq, Repr

/-! ## FootballAPI (services/football_api.py)

The transport (`_make_request`, i.e. `requests.get` + `raise_for_status` +
`.json()`) is modelled as a function from `(endpoint, params)` to the JSON
body, `none` standing for any `RequestException` path.  The Django cache is an
association list threaded through each operation; every `cache.set` is also
recorded as a `(key, value, ttl_seconds)` write so that caching policy can be
stated.  Query parameter values are either ints or strings. -/

inductive PVal where
  | n : Nat → PVal
  | s : String → PVal
deriving DecidableEq, Repr

/-- An upstream request: endpoint path plus query params in insertion order. -/
abbrev FCall := String × List (String × PVal)

/-- The JSON body of an API-Football response, reduced to the fields the
services read.  `truthy` is the Python truthiness of the response dict
(`False` only for an empty body). -/
structure FResp where
  truthy : Bool := true
  response : Option (List RawFixture) := none
  results : Option Nat := none
deriving DecidableEq, Repr

abbrev FCache := List (String × FResp)

abbrev FWrite := String × FResp × Nat

/-- Output of a FootballAPI operation: its return value, the cache after the
call, the upstream calls made and the cache writes performed. -/
structure FOut (α : Type) where
  res : α
  cache : FCache
  calls : List FCall
  writes : List FWrite
deriving DecidableEq, Repr

/-- Python `str(x)` for an optional int as it appears inside an f-string key
(`None` prints as "None"). -/
def pyOptNat : Option Nat → String
  | none => "None"
  | some v => toString v

def pyOptStr : Option String → String
  | none => "None"
  | some v => v

/-- Prepend a query parameter when its value passed the guard. -/
def consParam (k : String) (v : Option PVal) (rest : List (String × PVal)) :
    List (String × PVal) :=
  match v with
  | some v => (k, v) :: rest
  | none => rest

/-- Python truthiness guard for an optional int parameter (`if league_id:`
drops both `None` and `0`). -/
def guardNat (v : Option Nat) : Option PVal :=
  match v with
  | some n => if n = 0 then none else some (.n n)
  | none => none

/-- Python truthiness guard for an optional string parameter. -/
def guardStr (v : Option String) : Option PVal :=
  match v with
  | some s => if s = "" then none else some (.s s)
  | none => none

namespace FootballAPI

/-- The query parameters `FootballAPI.get_fixtures` builds, in source order. -/
def fixtureParams (league_id season : Option Nat) (date : Option String)
    (team_id : Option Nat) (status : Option String) (next : Option Nat)
    (live : Option String) : List (String × PVal) :=
  consParam "league" (guardNat league_id) <|
    consParam "season" (guardNat season) <|
      consParam "date" (guardStr date) <|
        consParam "team" (guardNat team_id) <|
          consParam "status" (guardStr status) <|
            consParam "next" (guardNat next) <|
              consParam "live" (guardStr live) []

/-- `FootballAPI.get_fixtures`: builds the params and issues one request. -/
def get_fixtures (api : FCall → Option FResp) (league_id season : Option Nat)
    (date : Option String) (team_id : Option Nat) (status : Option String)
    (next : Option Nat) (live : Option String) : Option FResp × List FCall :=
  let p : FCall := ("/fixtures", fixtureParams league_id season date team_id status next live)
  (api p, [p])

/-- Params of `FootballAPI.get_leagues` (guarded by Python truthiness). -/
def leaguesParams (country : Option String) (season : Option Nat) :
    List (String × PVal) :=
  consParam "country" (guardStr country) <| consParam "season" (guardNat season) []

/-- Fetch-and-store path shared by the cached FootballAPI operations: make the
request and, only when the body is truthy, store it under `key` with `ttl`. -/
def fetchStore (api : FCall → Option FResp) (cache : FCache) (key : String)
    (c : FCall) (ttl : Nat) : FOut (Option FResp) :=
  match api c with
  | some d =>
    if d.truthy then ⟨some d, (key, d) :: cache, [c], [(key, d, ttl)]⟩
    else ⟨some d, cache, [c], []⟩
  | none => ⟨none, cache, [c], []⟩

/-- The `cache.get` / request / `cache.set` pattern of the cached read
operations (`if cached_data:` is a truthiness check, so a falsy cached body
refetches). -/
def cachedFetch (api : FCall → Option FResp) (cache : FCache) (key : String)
    (c : FCall) (ttl : Nat) : FOut (Option FResp) :=
  match cache.lookup key with
  | some r =>
    if r.truthy then ⟨some r, cache, [], []⟩
    else fetchStore api cache key c ttl
  | none => fetchStore api cache key c ttl

/-- `FootballAPI.get_leagues`: 7-day cache over the country/season key. -/
def get_leagues (api : FCall → Option FResp) (cache : FCache)
    (country : Option String) (season : Option Nat) : FOut (Option FResp) :=
  cachedFetch api cache
    ("football_leagues_" ++ pyOptStr country ++ "_" ++ pyOptNat season)
    ("/leagues", leaguesParams country season)
    (60 * 60 * 24 * 7)

/-- The season `FootballAPI.get_todays_fixtures` uses:
`season or datetime.now().year` (so a missing or falsy season falls back to
the current calendar year, not to the August-based season rule). -/
def todaysSeason (now : DateTime) (season : Option Nat) : Nat :=
  match season with
  | some s => if s = 0 then now.year else s
  | none => now.year

/-- The request `get_todays_fixtures` issues through `get_fixtures`. -/
def todaysCall (now : DateTime) (league_id season : Option Nat) : FCall :=
  ("/fixtures",
    fixtureParams league_id (some (todaysSeason now season)) (some (dateStr now))
      none none none none)

/-- `FootballAPI.get_todays_fixtures`: fixtures for `now`'s date with the
calendar-year season default, cached for one hour.  `now` is the value of
`datetime.now()`. -/
def get_todays_fixtures (api : FCall → Option FResp) (now : DateTime) (cache : FCache)
    (league_id season : Option Nat) : FOut (Option FResp) :=
  cachedFetch api cache
    ("football_today_" ++ pyOptNat league_id ++ "_" ++ toString (todaysSeason now season)
      ++ "_" ++ dateStr now)
    (todaysCall now league_id season)
    (60 * 60)

/-- `FootballAPI.get_premier_league_fixtures` (league 39; season defaults to
`datetime.now().year`). -/
def get_premier_league_fixtures (api : FCall → Option FResp) (now : DateTime)
    (cache : FCache) (season : Option Nat) (date : Option String)
    (next_matches : Option Nat) : FOut (Option FResp) :=
  let current_season := match season with
    | some s => if s = 0 then now.year else s
    | none => now.year
  match next_matches with
  | some nm =>
    if nm ≠ 0 then
      let fc := get_fixtures api (some 39) (some current_season) none none none (some nm) none
      ⟨fc.1, cache, fc.2, []⟩
    else
      match date with
      | some d =>
        if d ≠ "" then
          let fc := get_fixtures api (some 39) (some current_season) (some d) none none none none
          ⟨fc.1, cache, fc.2, []⟩
        else get_todays_fixtures api now cache (some 39) none
      | none => get_todays_fixtures api now cache (some 39) none
  | none =>
    match date with
    | some d =>
      if d ≠ "" then
        let fc := get_fixtures api (some 39) (some current_season) (some d) none none none none
        ⟨fc.1, cache, fc.2, []⟩
      else get_todays_fixtures api now cache (some 39) none
    | none => get_todays_fixtures api now cache (some 39) none

/-- `FootballAPI.get_live_matches`: one fetch with `live='all'`, then a
client-side filter by league id when `league_id` is truthy (the filtered list
also overwrites the `results` count). -/
def get_live_matches (api : FCall → Option FResp) (league_id : Option Nat) :
    Option FResp × List FCall :=
  let fc := get_fixtures api none none none none none none (some "all")
  let all_live := fc.1
  let filtered :=
    match league_id, all_live with
    | some lid, some r =>
      if lid ≠ 0 ∧ r.truthy = true then
        match r.response with
        | some ms =>
          let keep := ms.filter (fun m => m.league_id == some lid)
          some { r with response := some keep, results := some keep.length }
        | none => all_live
      else all_live
    | _, _ => all_live
  (filtered, fc.2)

/-- `FootballAPI.get_team_info`: 7-day cache on the team id key. -/
def get_team_info (api : FCall → Option FResp) (cache : FCache) (team_id : Nat) :
    FOut (Option FResp) :=
  cachedFetch api cache
    ("football_team_" ++ toString team_id)
    ("/teams", [("id", .n team_id)])
    (60 * 60 * 24 * 7)

/-- `FootballAPI.get_standings`: 6-hour cache on the league/season key. -/
def get_standings (api : FCall → Option FResp) (cache : FCache)
    (league_id season : Nat) : FOut (Option FResp) :=
  cachedFetch api cache
    ("football_standings_" ++ toString league_id ++ "_" ++ toString season)
    ("/standings", [("league", .n league_id), ("season", .n season)])
    (60 * 60 * 6)

end FootballAPI

/-! ## Sorting by kickoff time

Both services run `matches.sort(key=lambda x: x.get('kickoff', {}).get('utc', ''))`,
a stable sort whose comparisons are Python string comparisons of the
`kickoff.utc` fields.  It is modelled as a stable insertion sort under the
code-point order `strLe`. -/

def kickLe (a b : EnrichedMatch) : Prop := strLe a.kickoff.utc b.kickoff.utc = true

instance : DecidableRel kickLe := fun a b =>
  inferInstanceAs (Decidable (strLe a.kickoff.utc b.kickoff.utc = true))

instance : IsTotal EnrichedMatch kickLe :=
  ⟨fun a b => strLe_total a.kickoff.utc b.kickoff.utc⟩

instance : IsTrans EnrichedMatch kickLe :=
  ⟨fun _ _ _ hab hbc => strLe_trans hab hbc⟩

/-- `matches.sort(key=lambda x: x['kickoff']['utc'])`. -/
def sortByKick (l : List EnrichedMatch) : List EnrichedMatch :=
  List.insertionSort kickLe l

/-! ## Top5LeaguesService (services/top5_leagues.py) -/

namespace Top5LeaguesService

/-- `Top5LeaguesService.LEAGUE_IDS` (league key → API-Football league id). -/
def LEAGUE_IDS : List (String × Nat) :=
  [("premier_league", 39), ("la_liga", 140), ("bundesliga", 78),
   ("serie_a", 135), ("ligue_1", 61)]

/-- `self.LEAGUE_IDS.values()`. -/
def leagueIdValues : List Nat := LEAGUE_IDS.map (·.2)

/-- `Top5LeaguesService.LEAGUE_NAMES` (league id → (name, country)). -/
def LEAGUE_NAMES : List (Nat × String × String) :=
  [(39, "Premier League", "England"), (140, "La Liga", "Spain"),
   (78, "Bundesliga", "Germany"), (135, "Serie A", "Italy"),
   (61, "Ligue 1", "France")]

/-- `Top5LeaguesService._get_current_season`: the season starts in August. -/
def get_current_season (now : DateTime) : Nat :=
  if now.month < 8 then now.year - 1 else now.year

/-- `Top5LeaguesService._enrich_match_data`.  With the typed field model every
`.get` access is total, so the `except` branch is unreachable; the function
returns `none` exactly when the fixture's league id is missing or not one of
the five configured ids. -/
def enrich_match_data (fx : RawFixture) : Option EnrichedMatch :=
  match fx.league_id with
  | none => none
  | some lid =>
    if lid ∈ leagueIdValues then
      let utc := fx.fixture_date.getD ""
      let sw := TimeConverter.utc_to_swedish_full utc
      let channels := BroadcastService.get_broadcast_channels lid
      let li := LEAGUE_NAMES.lookup lid
      some {
        id := fx.fixture_id
        league := ⟨lid, (li.map (·.1)).getD (fx.league_name.getD ""),
          (li.map (·.2)).getD (fx.league_country.getD ""), fx.league_logo.getD ""⟩
        home_team := ⟨fx.home.id, fx.home.name.getD "", fx.home.logo.getD ""⟩
        away_team := ⟨fx.away.id, fx.away.name.getD "", fx.away.logo.getD ""⟩
        kickoff := ⟨utc, sw.time, sw.date, sw.day_of_week, sw.timezone⟩
        status := fx.status_short.getD "NS"
        score := ⟨fx.goals_home, fx.goals_away⟩
        broadcast_channels := channels }
    else none

abbrev TCache := List (String × List EnrichedMatch)

abbrev TWrite := String × List EnrichedMatch × Nat

/-- Output of a Top5 operation: result, cache after, upstream calls, cache
writes with TTLs. -/
structure TOut (α : Type) where
  res : α
  cache : TCache
  calls : List FCall
  writes : List TWrite
deriving DecidableEq, Repr

/-- `league_ids = [self.LEAGUE_IDS[league]] if league else list(values)`.
A truthy key that is absent would raise `KeyError` in Python; that branch is
unreachable through `get_matches` (which validates first) and is modelled as
an empty league list. -/
def leagueIdsFor (league : Option String) : List Nat :=
  match league with
  | some s =>
    if s = "" then leagueIdValues
    else
      match LEAGUE_IDS.lookup s with
      | some i => [i]
      | none => []
  | none => leagueIdValues

/-- One iteration of the `_fetch_matches_for_date` per-league loop: cache
lookup (an empty cached list is falsy in Python and refetches), fetch, enrich
each fixture of the `response` list, cache the enriched list for one hour. -/
def fetchOne (api : FCall → Option FResp) (season : Nat) (date : String)
    (lid : Nat) (cache : TCache) : TOut (List EnrichedMatch) :=
  let key := "top5_matches_" ++ toString lid ++ "_" ++ date
  let doFetch : TOut (List EnrichedMatch) :=
    let fc := FootballAPI.get_fixtures api (some lid) (some season) (some date)
      none none none none
    match fc.1 with
    | some resp =>
      if resp.truthy = true ∧ resp.response.isSome then
        let league_matches := (resp.response.getD []).filterMap enrich_match_data
        ⟨league_matches, (key, league_matches) :: cache, fc.2,
          [(key, league_matches, 60 * 60)]⟩
      else ⟨[], cache, fc.2, []⟩
    | none => ⟨[], cache, fc.2, []⟩
  match cache.lookup key with
  | some v => if v.isEmpty then doFetch else ⟨v, cache, [], []⟩
  | none => doFetch

/-- The `for league_id in league_ids` loop of `_fetch_matches_for_date`. -/
def fetchLoop (api : FCall → Option FResp) (season : Nat) (date : String) :
    List Nat → TCache → TOut (List EnrichedMatch)
  | [], cache => ⟨[], cache, [], []⟩
  | lid :: rest, cache =>
    let one := fetchOne api season date lid cache
    let r := fetchLoop api season date rest one.cache
    ⟨one.res ++ r.res, r.cache, one.calls ++ r.calls, one.writes ++ r.writes⟩

/-- `Top5LeaguesService._fetch_matches_for_date`: per-league fetch + enrich
with a 1-hour cache, then a final sort by `kickoff.utc`. -/
def fetch_matches_for_date (api : FCall → Option FResp) (now : DateTime)
    (cache : TCache) (date : String) (league : Option String) :
    TOut (List EnrichedMatch) :=
  let season := get_current_season now
  let out := fetchLoop api season date (leagueIdsFor league) cache
  ⟨sortByKick out.res, out.cache, out.calls, out.writes⟩

/-- Accumulated output of the `_fetch_matches_for_range` day loop, keeping the
per-day lists separate (the source extends one list; its final list is the
concatenation of these). -/
structure RangeOut where
  dayLists : List (List EnrichedMatch)
  cache : TCache
  calls : List FCall
  writes : List TWrite
deriving DecidableEq, Repr

/-- The `for i in range(days_ahead)` loop of `_fetch_matches_for_range`:
day `i` queries `(today + timedelta(days=i)).strftime('%Y-%m-%d')`. -/
def rangeDays (api : FCall → Option FResp) (now : DateTime) (league : Option String) :
    Nat → Nat → TCache → RangeOut
  | _, 0, cache => ⟨[], cache, [], []⟩
  | i, k + 1, cache =>
    let d := dateStr (addDays now i)
    let day := fetch_matches_for_date api now cache d league
    let rest := rangeDays api now league (i + 1) k day.cache
    ⟨day.res :: rest.dayLists, rest.cache, day.calls ++ rest.calls,
      day.writes ++ rest.writes⟩

/-- `Top5LeaguesService._fetch_matches_for_range`: concatenates the per-day
results in day order, with no re-sort. -/
def fetch_matches_for_range (api : FCall → Option FResp) (now : DateTime)
    (cache : TCache) (days_ahead : Nat) (league : Option String) :
    TOut (List EnrichedMatch) :=
  let r := rangeDays api now league 0 days_ahead cache
  ⟨r.dayLists.flatten, r.cache, r.calls, r.writes⟩

/-- Result dict of `Top5LeaguesService.get_matches`.  The success shape also
echoes the filters; that echo dict carries no behaviour and is omitted.  The
validation-error shape has only the `error` and `matches` keys. -/
structure GetMatchesRes where
  error : Option String := none
  count : Option Nat := none
  «matches» : List EnrichedMatch := []
deriving DecidableEq, Repr

/-- The f-string error message for an invalid league filter. -/
def invalidLeagueMsg : String :=
  "Invalid league filter. Valid options: ['premier_league', 'la_liga', 'bundesliga', 'serie_a', 'ligue_1']"

/-- `Top5LeaguesService.get_matches`.  `if league and league not in LEAGUE_IDS`
is the Python guard: only a truthy (non-empty) unknown key is rejected.
`if date:` likewise treats an empty date string as absent. -/
def get_matches (api : FCall → Option FResp) (now : DateTime) (cache : TCache)
    (date league : Option String) (days_ahead : Nat) : TOut GetMatchesRes :=
  let leagueTruthy := match league with
    | some s => s != ""
    | none => false
  if leagueTruthy && (LEAGUE_IDS.lookup (league.getD "")).isNone then
    ⟨⟨some invalidLeagueMsg, none, []⟩, cache, [], []⟩
  else
    let out := match date with
      | some d =>
        if d = "" then fetch_matches_for_range api now cache days_ahead league
        else fetch_matches_for_date api now cache d league
      | none => fetch_matches_for_range api now cache days_ahead league
    ⟨⟨none, some out.res.length, out.res⟩, out.cache, out.calls, out.writes⟩

end Top5LeaguesService

/-! ## PremierLeagueAPI (services/premier_league_api.py)

The RapidAPI schedule endpoint returns a month schedule: a JSON object whose
values are, for date keys, lists of match objects (non-list values are skipped
by the `isinstance` check).  A raw match carries an unordered team list in
which each element may be flagged `isHome`; `isHome` is modelled as the Python
truthiness of `t.get('isHome')`. -/

structure PLTeam where
  id : Option Nat := none
  displayName : Option String := none
  shortName : Option String := none
  logo : Option String := none
  isHome : Bool := false
deriving DecidableEq, Repr

structure PLRawMatch where
  id : Option Nat := none
  date : Option String := none
  status_state : Option String := none
  status_detail : Option String := none
  teams : List PLTeam := []
  venue_fullName : Option String := none
  venue_city : Option String := none
deriving DecidableEq, Repr

/-- A month schedule: date key → list of raw matches, `none` for a non-list
JSON value. -/
abbrev Sched := List (String × Option (List PLRawMatch))

structure PLLeagueOut where
  id : Nat
  name : String
  country : String
deriving DecidableEq, Repr

structure PLTeamOut where
  id : Option Nat
  name : String
  short_name : String
  logo : String
deriving DecidableEq, Repr

structure PLVenueOut where
  name : String
  city : String
deriving DecidableEq, Repr

/-- The formatted match dict built by `PremierLeagueAPI._format_match`. -/
structure PLMatchOut where
  id : Option Nat
  league : PLLeagueOut
  home_team : PLTeamOut
  away_team : PLTeamOut
  kickoff : KickoffOut
  venue : PLVenueOut
  status : String
  broadcast_channels : List String
deriving DecidableEq, Repr

def kickLePL (a b : PLMatchOut) : Prop := strLe a.kickoff.utc b.kickoff.utc = true

instance : DecidableRel kickLePL := fun a b =>
  inferInstanceAs (Decidable (strLe a.kickoff.utc b.kickoff.utc = true))

instance : IsTotal PLMatchOut kickLePL :=
  ⟨fun a b => strLe_total a.kickoff.utc b.kickoff.utc⟩

instance : IsTrans PLMatchOut kickLePL :=
  ⟨fun _ _ _ hab hbc => strLe_trans hab hbc⟩

def sortByKickPL (l : List PLMatchOut) : List PLMatchOut :=
  List.insertionSort kickLePL l

namespace PremierLeagueAPI

/-- Projection of a raw team element to the output team dict. -/
def teamOut (t : PLTeam) : PLTeamOut :=
  ⟨t.id, t.displayName.getD "", t.shortName.getD "", t.logo.getD ""⟩

/-- `PremierLeagueAPI._format_match`.  With fewer than two team elements the
source raises `IndexError` into its own `except` and returns `None`; otherwise
`home_team = next((t for t in teams if t.get('isHome')), teams[1])` and
`away_team = next((t for t in teams if not t.get('isHome')), teams[0])`. -/
def format_match (m : PLRawMatch) : Option PLMatchOut :=
  let teams := m.teams
  if teams.length < 2 then none
  else
    let home_team := (teams.find? (fun t => t.isHome)).getD (teams.getD 1 {})
    let away_team := (teams.find? (fun t => !t.isHome)).getD (teams.getD 0 {})
    let utc_time := m.date.getD ""
    let sw := TimeConverter.utc_to_swedish_full utc_time
    some {
      id := m.id
      league := ⟨39, "Premier League", "England"⟩
      home_team := teamOut home_team
      away_team := teamOut away_team
      kickoff := ⟨utc_time, sw.time, sw.date, sw.day_of_week, sw.timezone⟩
      venue := ⟨m.venue_fullName.getD "", m.venue_city.getD ""⟩
      status := m.status_detail.getD "Scheduled"
      broadcast_channels := BroadcastService.get_broadcast_channels 39 }

/-- Per-match body of the `_filter_upcoming_matches` loop: skip completed
matches, skip a missing date, skip an unparseable date (`fromisoformat` on the
`'Z'`-replaced string), skip matches outside `[now, now + days_ahead]` (the
parsed date is stripped of its tzinfo and compared as a wall clock against the
naive `now`), then format. -/
def processMatch (now cutoff : DateTime) (m : PLRawMatch) : Option PLMatchOut :=
  if m.status_state = some "post" ∨ m.status_detail = some "FT" then none
  else
    let dstr := m.date.getD ""
    if dstr = "" then none
    else
      match fromIsoFormat (replaceZ dstr) with
      | none => none
      | some md =>
        if wallMicros md < wallMicros now then none
        else if wallMicros md > wallMicros cutoff then none
        else format_match m

/-- `PremierLeagueAPI._filter_upcoming_matches`: gather the surviving
formatted matches over all date keys, then sort by `kickoff.utc`. -/
def filter_upcoming_matches (data : Sched) (now : DateTime) (days_ahead : Nat) :
    List PLMatchOut :=
  let cutoff := addDays now days_ahead
  sortByKickPL
    ((data.map (fun kv =>
      match kv.2 with
      | some dayMatches => dayMatches.filterMap (processMatch now cutoff)
      | none => [])).flatten)

/-- `dict.update`: existing keys are overwritten in place, new keys appended
in the update's order. -/
def dictUpdate (base upd : Sched) : Sched :=
  base.map (fun kv =>
    match upd.lookup kv.1 with
    | some v => (kv.1, v)
    | none => kv) ++ upd.filter (fun kv => (base.lookup kv.1).isNone)

/-- Schedule assembled by `get_upcoming_matches`: the current month's schedule
(the provider's `data.get('schedule', data)` unwrapping is folded into the
transport model), merged with next month's when the current day is past the
20th.  A falsy or failed current-month response is `none`. -/
def uplSchedule (plApi : Nat → Nat → Option Sched) (now : DateTime) : Option Sched :=
  match plApi now.year now.month with
  | none => none
  | some schedule =>
    if now.day > 20 then
      let nextMonth := if now.month < 12 then now.month + 1 else 1
      let nextYear := if now.month < 12 then now.year else now.year + 1
      match plApi nextYear nextMonth with
      | some next_schedule => some (dictUpdate schedule next_schedule)
      | none => some schedule
    else some schedule

/-- Result dict of `PremierLeagueAPI.get_upcoming_matches`. -/
structure PLResult where
  count : Nat := 0
  league : Option String := none
  «matches» : List PLMatchOut := []
  error : Option String := none
deriving DecidableEq, Repr

structure PLOut where
  res : PLResult
  cache : List (String × PLResult)
  writes : List (String × PLResult × Nat)
deriving DecidableEq, Repr

/-- `PremierLeagueAPI.get_upcoming_matches`: month cache keyed by
year/month/window, schedule fetch and merge, filter, 1-hour cache write (a
cached result dict is always truthy). -/
def get_upcoming_matches (plApi : Nat → Nat → Option Sched) (now : DateTime)
    (cache : List (String × PLResult)) (days_ahead : Nat) : PLOut :=
  let key := "pl_upcoming_" ++ toString now.year ++ "_" ++ toString now.month
    ++ "_" ++ toString days_ahead
  match cache.lookup key with
  | some r => ⟨r, cache, []⟩
  | none =>
    match uplSchedule plApi now with
    | none => ⟨⟨0, none, [], some "Failed to fetch data"⟩, cache, []⟩
    | some sched =>
      let ms := filter_upcoming_matches sched now days_ahead
      let result : PLResult := ⟨ms.length, some "Premier League", ms, none⟩
      ⟨result, (key, result) :: cache, [(key, result, 60 * 60)]⟩

end PremierLeagueAPI

/-! ## Claim theorems -/

/-- C7: for every input string on which `_parse_utc_timestamp` fails,
`utc_to_swedish_full` returns the defined default — time "00:00", date `None`,
day_of_week `None`, zone label "CET" — and, being a total function of the
input, raises nothing to its caller. -/
theorem claim_c7_parse_failure_default (s : String)
    (h : TimeConverter.parse_utc_timestamp s = none) :
    TimeConverter.utc_to_swedish_full s = ⟨none, "00:00", none, "CET"⟩ := by
  unfold TimeConverter.utc_to_swedish_full
  rw [h]

/-- C7 witness: the empty string fails to parse and yields the default. -/
theorem claim_c7_witness :
    TimeConverter.parse_utc_timestamp "" = none ∧
    TimeConverter.utc_to_swedish_full "" = ⟨none, "00:00", none, "CET"⟩ :=
  ⟨by decide, claim_c7_parse_failure_default "" (by decide)⟩

/-- C8: converting "2024-07-15T18:00:00Z" to Europe/Stockholm yields date
"2024-07-15", time "20:00", day_of_week "Monday" and zone label "CEST"
(summer, UTC+2); converting "2024-12-01T15:00:00Z" yields time "16:00" and
zone label "CET" (winter, UTC+1). -/
theorem claim_c8_concrete_conversions :
    TimeConverter.utc_to_swedish_full "2024-07-15T18:00:00Z" =
      ⟨some "2024-07-15", "20:00", some "Monday", "CEST"⟩ ∧
    (TimeConverter.utc_to_swedish_full "2024-12-01T15:00:00Z").time = "16:00" ∧
    (TimeConverter.utc_to_swedish_full "2024-12-01T15:00:00Z").timezone = "CET" :=
  ⟨by decide, by decide, by decide⟩

/-- C9: whenever `_enrich_match_data` produces an enriched match, its
`kickoff.utc` is the original upstream timestamp string (empty when the
upstream `fixture.date` field is missing) and its `broadcast_channels` list is
non-empty; and enrichment returns `None` for every fixture whose league id is
missing or not one of the five configured ids. -/
theorem claim_c9_enrichment_invariants (fx : RawFixture) :
    (∀ m, Top5LeaguesService.enrich_match_data fx = some m →
      m.kickoff.utc = fx.fixture_date.getD "" ∧ m.broadcast_channels ≠ []) ∧
    ((∀ lid, fx.league_id = some lid → lid ∉ Top5LeaguesService.leagueIdValues) →
      Top5LeaguesService.enrich_match_data fx = none) := by
  constructor
  · intro m hm
    unfold Top5LeaguesService.enrich_match_data at hm
    split at hm
    · exact Option.noConfusion hm
    · rename_i lid _
      split at hm
      · cases hm
        exact ⟨rfl, BroadcastService.get_broadcast_channels_ne_nil lid⟩
      · exact Option.noConfusion hm
  · intro h
    unfold Top5LeaguesService.enrich_match_data
    split
    · rfl
    · rename_i lid hfl
      exact if_neg (h lid hfl)

/-- Fixture in a configured league (39) with an unparseable timestamp. -/
def c9FixtureGood : RawFixture := { league_id := some 39, fixture_date := some "x" }

/-- Fixture whose league id (2) is outside the configured five. -/
def c9FixtureBad : RawFixture := { league_id := some 2 }

/-- The enriched value of `c9FixtureGood`. -/
def c9Enriched : EnrichedMatch :=
  { id := none
    league := ⟨39, "Premier League", "England", ""⟩
    home_team := ⟨none, "", ""⟩
    away_team := ⟨none, "", ""⟩
    kickoff := ⟨"x", "00:00", none, none, "CET"⟩
    status := "NS"
    score := ⟨none, none⟩
    broadcast_channels := ["Sky Sports", "TNT Sports", "NOW TV"] }

/-- C9 witness: a league-39 fixture enriches with the original timestamp and a
non-empty channel list, and a league-2 fixture enriches to `None`. -/
theorem claim_c9_witness :
    c9Enriched.kickoff.utc = c9FixtureGood.fixture_date.getD "" ∧
    c9Enriched.broadcast_channels ≠ [] ∧
    Top5LeaguesService.enrich_match_data c9FixtureBad = none :=
  ⟨((claim_c9_enrichment_invariants c9FixtureGood).1 c9Enriched (by decide)).1,
   ((claim_c9_enrichment_invariants c9FixtureGood).1 c9Enriched (by decide)).2,
   (claim_c9_enrichment_invariants c9FixtureBad).2
     (by intro lid h; injection h with h2; subst h2; decide)⟩

/-- C3 (amended): for a two-element team list, `_format_match` takes as home
team the first element whose `isHome` flag is truthy, defaulting to index 1
when none is flagged; and as away team the first element whose flag is falsy,
defaulting to index 0 when both are flagged.  With exactly one flagged element
this picks the flagged one as home and the other as away, and with no flagged
element it is the positional fallback (index 1 home, index 0 away) — but with
both elements flagged, the element at index 0 becomes both home and away. -/
theorem claim_c3_home_away_amended (m : PLRawMatch) (t0 t1 : PLTeam)
    (h : m.teams = [t0, t1]) :
    (PremierLeagueAPI.format_match m).map (fun r => r.home_team) =
      some (PremierLeagueAPI.teamOut (if t0.isHome then t0 else t1)) ∧
    (PremierLeagueAPI.format_match m).map (fun r => r.away_team) =
      some (PremierLeagueAPI.teamOut
        (if !t0.isHome then t0 else if !t1.isHome then t1 else t0)) := by
  unfold PremierLeagueAPI.format_match
  rw [h]
  by_cases h0 : t0.isHome = true <;> by_cases h1 : t1.isHome = true <;>
    simp [List.find?, h0, h1, List.getD]

def c3TeamA : PLTeam := { id := some 1, displayName := some "A", isHome := true }

def c3TeamB : PLTeam := { id := some 2, displayName := some "B", isHome := true }

/-- A raw match whose two team elements are both flagged home. -/
def c3BothFlagged : PLRawMatch := { teams := [c3TeamA, c3TeamB] }

/-- C3 counterexample: with both elements flagged home the claim's fallback
(index 1 = home, index 0 = away) predicts home "B" and away "A"; the code
returns home "A" (the first flagged element, index 0) and away "A" (the
`next` default `teams[0]`, since no element is unflagged). -/
theorem claim_c3_counterexample :
    (PremierLeagueAPI.format_match c3BothFlagged).map (fun r => r.home_team.name) = some "A" ∧
    (PremierLeagueAPI.format_match c3BothFlagged).map (fun r => r.away_team.name) = some "A" ∧
    c3TeamB.displayName.getD "" = "B" ∧ ("A" : String) ≠ "B" :=
  ⟨by decide, by decide, by decide, by decide⟩

/-- C3 witness: the amended resolution evaluated on the both-flagged input. -/
theorem claim_c3_witness :
    (PremierLeagueAPI.format_match c3BothFlagged).map (fun r => r.home_team) =
      some (PremierLeagueAPI.teamOut (if c3TeamA.isHome then c3TeamA else c3TeamB)) ∧
    (PremierLeagueAPI.format_match c3BothFlagged).map (fun r => r.away_team) =
      some (PremierLeagueAPI.teamOut
        (if !c3TeamA.isHome then c3TeamA else if !c3TeamB.isHome then c3TeamB else c3TeamA)) :=
  claim_c3_home_away_amended c3BothFlagged c3TeamA c3TeamB rfl

/-- The `response` list carried by an optional response body. -/
def respList (o : Option FResp) : List RawFixture :=
  match o with
  | some r => r.response.getD []
  | none => []

/-- C5 (amended): `get_live_matches` issues exactly one upstream request, with
the all-leagues `live='all'` parameter and no league parameter; and for every
nonzero league id the returned response list contains only matches of that
league (for `league_id=0`, a falsy value in Python, the filter is skipped —
see the counterexample).  The well-formedness hypothesis `hwf` says the
transport returns Python-representable bodies: a dict containing a `response`
key is non-empty, hence truthy. -/
theorem claim_c5_live_filtering (api : FCall → Option FResp) (lid : Nat) (hlid : lid ≠ 0)
    (hwf : ∀ r, api ("/fixtures", [("live", PVal.s "all")]) = some r →
      r.response.isSome = true → r.truthy = true) :
    (FootballAPI.get_live_matches api (some lid)).2 =
      [("/fixtures", [("live", PVal.s "all")])] ∧
    ∀ m ∈ respList (FootballAPI.get_live_matches api (some lid)).1,
      m.league_id = some lid := by
  have hc : FootballAPI.fixtureParams none none none none none none (some "all") =
      [("live", PVal.s "all")] := rfl
  constructor
  · rfl
  · intro m
    unfold FootballAPI.get_live_matches FootballAPI.get_fixtures
    rw [hc]
    dsimp only
    cases hapi : api ("/fixtures", [("live", PVal.s "all")]) with
    | none => intro hm; simp [respList] at hm
    | some r =>
      cases hresp : r.response with
      | none => intro hm; simp [respList, hresp] at hm
      | some ms =>
        have ht : r.truthy = true := hwf r hapi (by rw [hresp]; rfl)
        intro hm
        simp only [respList, hresp, ht, hlid, ne_eq, not_false_eq_true, and_self, if_true,
          Option.getD_some, List.mem_filter] at hm
        exact eq_of_beq hm.2

def c5Match39 : RawFixture := { league_id := some 39 }

def c5Match7 : RawFixture := { league_id := some 7 }

/-- A transport whose live set holds one league-39 and one league-7 match. -/
def c5Api : FCall → Option FResp := fun c =>
  if c = ("/fixtures", [("live", PVal.s "all")]) then
    some ⟨true, some [c5Match39, c5Match7], none⟩
  else none

/-- C5 counterexample: the claim quantifies over every league id, but for
`league_id=0` (falsy in Python) the client-side filter is skipped, so the
result still contains a league-7 match. -/
theorem claim_c5_counterexample :
    c5Match7 ∈ respList (FootballAPI.get_live_matches c5Api (some 0)).1 ∧
    c5Match7.league_id ≠ some 0 :=
  ⟨by decide, by decide⟩

/-- C5 witness: filtering for league 39 on the concrete transport. -/
theorem claim_c5_witness :
    (FootballAPI.get_live_matches c5Api (some 39)).2 =
      [("/fixtures", [("live", PVal.s "all")])] ∧
    ∀ m ∈ respList (FootballAPI.get_live_matches c5Api (some 39)).1,
      m.league_id = some 39 :=
  claim_c5_live_filtering c5Api 39 (by decide)
    (by intro r h hs
        simp only [c5Api, if_pos rfl] at h
        cases h
        rfl)

theorem lookup_consParam_ne (k q : String) (v : Option PVal)
    (rest : List (String × PVal)) (h : (q == k) = false) :
    (consParam k v rest).lookup q = rest.lookup q := by
  cases v <;> simp [consParam, List.lookup, h]

theorem lookup_consParam_self (k : String) (v : Option PVal)
    (rest : List (String × PVal)) :
    (consParam k v rest).lookup k =
      match v with
      | some pv => some pv
      | none => rest.lookup k := by
  cases v <;> simp [consParam, List.lookup]

/-- The `season` query parameter of a `/fixtures` request is exactly the
guarded season argument. -/
theorem fixtureParams_lookup_season (l s : Option Nat) (d : Option String)
    (t : Option Nat) (st : Option String) (n : Option Nat) (lv : Option String) :
    (FootballAPI.fixtureParams l s d t st n lv).lookup "season" = guardNat s := by
  unfold FootballAPI.fixtureParams
  rw [lookup_consParam_ne _ _ _ _ (by decide), lookup_consParam_self]
  cases hs : guardNat s with
  | some pv => rfl
  | none =>
    rw [lookup_consParam_ne _ _ _ _ (by decide), lookup_consParam_ne _ _ _ _ (by decide),
      lookup_consParam_ne _ _ _ _ (by decide), lookup_consParam_ne _ _ _ _ (by decide),
      lookup_consParam_ne _ _ _ _ (by decide)]
    rfl

theorem fetchOne_calls {api : FCall → Option FResp} {season : Nat} {date : String}
    {lid : Nat} {cache : Top5LeaguesService.TCache} :
    ∀ c ∈ (Top5LeaguesService.fetchOne api season date lid cache).calls,
      c.1 = "/fixtures" ∧ c.2.lookup "season" = guardNat (some season) := by
  intro c hc
  unfold Top5LeaguesService.fetchOne FootballAPI.get_fixtures at hc
  dsimp only at hc
  split at hc
  · split at hc
    · split at hc
      · split at hc
        · simp only [List.mem_singleton] at hc
          subst hc
          exact ⟨rfl, fixtureParams_lookup_season _ _ _ _ _ _ _⟩
        · simp only [List.mem_singleton] at hc
          subst hc
          exact ⟨rfl, fixtureParams_lookup_season _ _ _ _ _ _ _⟩
      · simp only [List.mem_singleton] at hc
        subst hc
        exact ⟨rfl, fixtureParams_lookup_season _ _ _ _ _ _ _⟩
    · simp at hc
  · split at hc
    · split at hc
      · simp only [List.mem_singleton] at hc
        subst hc
        exact ⟨rfl, fixtureParams_lookup_season _ _ _ _ _ _ _⟩
      · simp only [List.mem_singleton] at hc
        subst hc
        exact ⟨rfl, fixtureParams_lookup_season _ _ _ _ _ _ _⟩
    · simp only [List.mem_singleton] at hc
      subst hc
      exact ⟨rfl, fixtureParams_lookup_season _ _ _ _ _ _ _⟩

theorem fetchLoop_calls {api : FCall → Option FResp} {season : Nat} {date : String} :
    ∀ (lids : List Nat) (cache : Top5LeaguesService.TCache),
      ∀ c ∈ (Top5LeaguesService.fetchLoop api season date lids cache).calls,
        c.1 = "/fixtures" ∧ c.2.lookup "season" = guardNat (some season) := by
  intro lids
  induction lids with
  | nil => intro cache c hc; simp [Top5LeaguesService.fetchLoop] at hc
  | cons lid rest ih =>
    intro cache c hc
    simp only [Top5LeaguesService.fetchLoop] at hc
    rw [List.mem_append] at hc
    rcases hc with hc | hc
    · exact fetchOne_calls c hc
    · exact ih _ c hc

theorem fetch_matches_for_date_calls (api : FCall → Option FResp) (now : DateTime)
    (cache : Top5LeaguesService.TCache) (date : String) (league : Option String) :
    ∀ c ∈ (Top5LeaguesService.fetch_matches_for_date api now cache date league).calls,
      c.1 = "/fixtures" ∧
      c.2.lookup "season" = guardNat (some (Top5LeaguesService.get_current_season now)) :=
  fun c hc => fetchLoop_calls _ _ c hc

theorem cachedFetch_calls {api : FCall → Option FResp} {cache : FCache}
    {key : String} {c : FCall} {ttl : Nat} :
    ∀ x ∈ (FootballAPI.cachedFetch api cache key c ttl).calls, x = c := by
  intro x hx
  unfold FootballAPI.cachedFetch FootballAPI.fetchStore at hx
  split at hx
  · split at hx
    · simp at hx
    · split at hx
      · split at hx <;> · simp only [List.mem_singleton] at hx; exact hx
      · simp only [List.mem_singleton] at hx; exact hx
  · split at hx
    · split at hx <;> · simp only [List.mem_singleton] at hx; exact hx
    · simp only [List.mem_singleton] at hx; exact hx

theorem get_todays_fixtures_calls (api : FCall → Option FResp) (now : DateTime)
    (cache : FCache) (league_id season : Option Nat) :
    ∀ c ∈ (FootballAPI.get_todays_fixtures api now cache league_id season).calls,
      c.1 = "/fixtures" ∧
      c.2.lookup "season" = guardNat (some (FootballAPI.todaysSeason now season)) := by
  intro c hc
  have h := cachedFetch_calls c hc
  subst h
  exact ⟨rfl, fixtureParams_lookup_season _ _ _ _ _ _ _⟩

/-- C4 (amended): the Top5 aggregation service resolves the season for its
upstream fixture calls as `year - 1` before August and `year` from August on
(`_get_current_season`); but `FootballAPI.get_todays_fixtures` (and hence
`get_premier_league_fixtures`, which delegates to it when called without
arguments) defaults the season to the bare current calendar year, independent
of the month. -/
theorem claim_c4_season_amended (api : FCall → Option FResp) (now : DateTime)
    (tcache : Top5LeaguesService.TCache) (fcache : FCache) :
    (∀ (date : String) (league : Option String) (c : FCall),
      c ∈ (Top5LeaguesService.fetch_matches_for_date api now tcache date league).calls →
      c.2.lookup "season" = guardNat (some (Top5LeaguesService.get_current_season now))) ∧
    (Top5LeaguesService.get_current_season now =
      if now.month < 8 then now.year - 1 else now.year) ∧
    (∀ (league_id : Option Nat) (c : FCall),
      c ∈ (FootballAPI.get_todays_fixtures api now fcache league_id none).calls →
      c.2.lookup "season" = guardNat (some now.year)) ∧
    (FootballAPI.get_premier_league_fixtures api now fcache none none none =
      FootballAPI.get_todays_fixtures api now fcache (some 39) none) := by
  refine ⟨?_, rfl, ?_, rfl⟩
  · intro date league c hc
    exact (fetch_matches_for_date_calls api now tcache date league c hc).2
  · intro league_id c hc
    exact (get_todays_fixtures_calls api now fcache league_id none c hc).2

/-- C4 counterexample: on 2025-03-10 (month 3 < 8) the month-based rule gives
season 2024, but `get_todays_fixtures` issues its upstream call with
`season=2025`, the bare calendar year. -/
theorem claim_c4_counterexample :
    (FootballAPI.get_todays_fixtures (fun _ => none) ⟨2025, 3, 10, 0, 0, 0, 0, none⟩
      [] (some 39) none).calls =
      [("/fixtures",
        [("league", PVal.n 39), ("season", PVal.n 2025), ("date", PVal.s "2025-03-10")])] ∧
    Top5LeaguesService.get_current_season ⟨2025, 3, 10, 0, 0, 0, 0, none⟩ = 2024 ∧
    (2025 : Nat) ≠ 2024 :=
  ⟨by decide, by decide, by decide⟩

/-- C4 witness: the amended season resolutions evaluated on 2025-03-10, for
the Top5 date fetch (season 2024) and the todays-fixtures default (2025). -/
theorem claim_c4_witness :
    (("/fixtures",
      [("league", PVal.n 39), ("season", PVal.n 2024), ("date", PVal.s "2024-01-01")]) :
        FCall).2.lookup "season" =
      guardNat (some (Top5LeaguesService.get_current_season ⟨2025, 3, 10, 0, 0, 0, 0, none⟩)) ∧
    (("/fixtures",
      [("league", PVal.n 39), ("season", PVal.n 2025), ("date", PVal.s "2025-03-10")]) :
        FCall).2.lookup "season" =
      guardNat (some (⟨2025, 3, 10, 0, 0, 0, 0, none⟩ : DateTime).year) :=
  ⟨(claim_c4_season_amended (fun _ => none) ⟨2025, 3, 10, 0, 0, 0, 0, none⟩ [] []).1
      "2024-01-01" (some "premier_league") _ (by decide),
   (claim_c4_season_amended (fun _ => none) ⟨2025, 3, 10, 0, 0, 0, 0, none⟩ [] []).2.2.1
      (some 39) _ (by decide)⟩

theorem fetchStore_writes_ttl {api : FCall → Option FResp} {cache : FCache}
    {key : String} {c : FCall} {ttl : Nat} :
    ∀ w ∈ (FootballAPI.fetchStore api cache key c ttl).writes, w.2.2 = ttl := by
  intro w hw
  unfold FootballAPI.fetchStore at hw
  split at hw
  · split at hw
    · simp only [List.mem_singleton] at hw
      subst hw
      rfl
    · simp at hw
  · simp at hw

theorem cachedFetch_writes_ttl {api : FCall → Option FResp} {cache : FCache}
    {key : String} {c : FCall} {ttl : Nat} :
    ∀ w ∈ (FootballAPI.cachedFetch api cache key c ttl).writes, w.2.2 = ttl := by
  intro w hw
  unfold FootballAPI.cachedFetch at hw
  split at hw
  · split at hw
    · simp at hw
    · exact fetchStore_writes_ttl w hw
  · exact fetchStore_writes_ttl w hw

/-- When the operation's result is the absence value no write happened and
the cache is untouched. -/
theorem cachedFetch_absent {api : FCall → Option FResp} {cache : FCache}
    {key : String} {c : FCall} {ttl : Nat}
    (h : (FootballAPI.cachedFetch api cache key c ttl).res = none) :
    (FootballAPI.cachedFetch api cache key c ttl).writes = [] ∧
    (FootballAPI.cachedFetch api cache key c ttl).cache = cache := by
  unfold FootballAPI.cachedFetch FootballAPI.fetchStore at h ⊢
  rcases hl : List.lookup key cache with _ | r
  · simp only [hl] at h ⊢
    rcases ha : api c with _ | d
    · simp only [ha] at h ⊢
      exact ⟨by trivial, by trivial⟩
    · simp only [ha] at h ⊢
      rcases ht : d.truthy with _ | _ <;> simp [ht] at h
  · simp only [hl] at h ⊢
    rcases ht : r.truthy with _ | _
    · simp only [ht, Bool.false_eq_true, if_false] at h ⊢
      rcases ha : api c with _ | d
      · simp only [ha] at h ⊢
        exact ⟨by trivial, by trivial⟩
      · simp only [ha] at h ⊢
        rcases ht2 : d.truthy with _ | _ <;> simp [ht2] at h
    · simp [ht] at h

theorem fetchOne_writes_ttl {api : FCall → Option FResp} {season : Nat}
    {date : String} {lid : Nat} {cache : Top5LeaguesService.TCache} :
    ∀ w ∈ (Top5LeaguesService.fetchOne api season date lid cache).writes,
      w.2.2 = 60 * 60 := by
  intro w hw
  unfold Top5LeaguesService.fetchOne at hw
  dsimp only at hw
  split at hw
  · split at hw
    · split at hw
      · split at hw
        · simp only [List.mem_singleton] at hw
          subst hw
          rfl
        · simp at hw
      · simp at hw
    · simp at hw
  · split at hw
    · split at hw
      · simp only [List.mem_singleton] at hw
        subst hw
        rfl
      · simp at hw
    · simp at hw

theorem fetchLoop_writes_ttl {api : FCall → Option FResp} {season : Nat} {date : String} :
    ∀ (lids : List Nat) (cache : Top5LeaguesService.TCache),
      ∀ w ∈ (Top5LeaguesService.fetchLoop api season date lids cache).writes,
        w.2.2 = 60 * 60 := by
  intro lids
  induction lids with
  | nil => intro cache w hw; simp [Top5LeaguesService.fetchLoop] at hw
  | cons lid rest ih =>
    intro cache w hw
    simp only [Top5LeaguesService.fetchLoop] at hw
    rw [List.mem_append] at hw
    rcases hw with hw | hw
    · exact fetchOne_writes_ttl w hw
    · exact ih _ w hw

theorem fetchOne_apiAbsent {api : FCall → Option FResp} {season : Nat}
    {date : String} {lid : Nat} {cache : Top5LeaguesService.TCache}
    (h : ∀ c, api c = none) :
    (Top5LeaguesService.fetchOne api season date lid cache).writes = [] ∧
    (Top5LeaguesService.fetchOne api season date lid cache).cache = cache := by
  unfold Top5LeaguesService.fetchOne FootballAPI.get_fixtures
  dsimp only
  rw [h]
  split
  · split
    · exact ⟨rfl, rfl⟩
    · exact ⟨rfl, rfl⟩
  · exact ⟨rfl, rfl⟩

theorem fetchLoop_apiAbsent {api : FCall → Option FResp} {season : Nat} {date : String}
    (h : ∀ c, api c = none) :
    ∀ (lids : List Nat) (cache : Top5LeaguesService.TCache),
      (Top5LeaguesService.fetchLoop api season date lids cache).writes = [] ∧
      (Top5LeaguesService.fetchLoop api season date lids cache).cache = cache := by
  intro lids
  induction lids with
  | nil => intro cache; exact ⟨rfl, rfl⟩
  | cons lid rest ih =>
    intro cache
    simp only [Top5LeaguesService.fetchLoop]
    have h1 := @fetchOne_apiAbsent api season date lid cache h
    constructor
    · rw [h1.1, (ih _).1]
      rfl
    · rw [(ih _).2, h1.2]

/-- C6 (amended): for each cached read-path operation, when the fetch yields
the absence value nothing is written and the cache is unchanged; writes
happen only on a successful (truthy) fetch, with TTLs: league list 7 days,
today's fixtures 1 hour, team info 7 days, standings **6 hours** (not one of
the claim's three categories), and the Top5 per-league day fetch 1 hour. -/
theorem claim_c6_cache_policy (api : FCall → Option FResp) (fcache : FCache)
    (tcache : Top5LeaguesService.TCache) (now : DateTime) (country : Option String)
    (cseason fseason : Option Nat) (league_id : Option Nat) (team_id : Nat)
    (sleague sseason : Nat) (date : String) (league : Option String) :
    ((FootballAPI.get_leagues api fcache country cseason).res = none →
      (FootballAPI.get_leagues api fcache country cseason).writes = [] ∧
      (FootballAPI.get_leagues api fcache country cseason).cache = fcache) ∧
    (∀ w ∈ (FootballAPI.get_leagues api fcache country cseason).writes,
      w.2.2 = 60 * 60 * 24 * 7) ∧
    ((FootballAPI.get_todays_fixtures api now fcache league_id fseason).res = none →
      (FootballAPI.get_todays_fixtures api now fcache league_id fseason).writes = [] ∧
      (FootballAPI.get_todays_fixtures api now fcache league_id fseason).cache = fcache) ∧
    (∀ w ∈ (FootballAPI.get_todays_fixtures api now fcache league_id fseason).writes,
      w.2.2 = 60 * 60) ∧
    ((FootballAPI.get_team_info api fcache team_id).res = none →
      (FootballAPI.get_team_info api fcache team_id).writes = [] ∧
      (FootballAPI.get_team_info api fcache team_id).cache = fcache) ∧
    (∀ w ∈ (FootballAPI.get_team_info api fcache team_id).writes,
      w.2.2 = 60 * 60 * 24 * 7) ∧
    ((FootballAPI.get_standings api fcache sleague sseason).res = none →
      (FootballAPI.get_standings api fcache sleague sseason).writes = [] ∧
      (FootballAPI.get_standings api fcache sleague sseason).cache = fcache) ∧
    (∀ w ∈ (FootballAPI.get_standings api fcache sleague sseason).writes,
      w.2.2 = 60 * 60 * 6) ∧
    ((∀ c, api c = none) →
      (Top5LeaguesService.fetch_matches_for_date api now tcache date league).writes = [] ∧
      (Top5LeaguesService.fetch_matches_for_date api now tcache date league).cache = tcache) ∧
    (∀ w ∈ (Top5LeaguesService.fetch_matches_for_date api now tcache date league).writes,
      w.2.2 = 60 * 60) :=
  ⟨fun h => cachedFetch_absent h, cachedFetch_writes_ttl,
   fun h => cachedFetch_absent h, cachedFetch_writes_ttl,
   fun h => cachedFetch_absent h, cachedFetch_writes_ttl,
   fun h => cachedFetch_absent h, cachedFetch_writes_ttl,
   fun h => fetchLoop_apiAbsent h _ _,
   fun w hw => fetchLoop_writes_ttl _ _ w hw⟩

def c6Resp : FResp := ⟨true, none, none⟩

/-- A transport that always answers with a truthy body. -/
def c6ApiOK : FCall → Option FResp := fun _ => some c6Resp

/-- C6 counterexample: a successful standings fetch writes its cache entry
with a 6-hour TTL (21600 s), which is none of the claim's data-category TTLs
(7 days, 1 hour, 60 seconds). -/
theorem claim_c6_counterexample :
    (FootballAPI.get_standings c6ApiOK [] 39 2024).writes =
      [("football_standings_39_2024", c6Resp, 21600)] ∧
    ¬(21600 = 60 * 60 * 24 * 7 ∨ 21600 = 60 * 60 ∨ 21600 = 60) :=
  ⟨by decide, by decide⟩

/-- A transport that always fails. -/
def c6ApiNone : FCall → Option FResp := fun _ => none

/-- C6 witness: with a failing transport, a leagues fetch and a Top5 day fetch
write nothing and leave the cache unchanged; a successful standings fetch
writes with the 6-hour TTL. -/
theorem claim_c6_witness :
    ((FootballAPI.get_leagues c6ApiNone [] none none).writes = [] ∧
      (FootballAPI.get_leagues c6ApiNone [] none none).cache = []) ∧
    ((Top5LeaguesService.fetch_matches_for_date c6ApiNone ⟨2024, 1, 1, 0, 0, 0, 0, none⟩
        [] "2024-01-01" none).writes = [] ∧
      (Top5LeaguesService.fetch_matches_for_date c6ApiNone ⟨2024, 1, 1, 0, 0, 0, 0, none⟩
        [] "2024-01-01" none).cache = []) ∧
    (∀ w ∈ (FootballAPI.get_standings c6ApiOK [] 39 2024).writes, w.2.2 = 60 * 60 * 6) :=
  ⟨(claim_c6_cache_policy c6ApiNone [] [] ⟨2024, 1, 1, 0, 0, 0, 0, none⟩ none none none
      none 1 39 2024 "2024-01-01" none).1 (by decide),
   (claim_c6_cache_policy c6ApiNone [] [] ⟨2024, 1, 1, 0, 0, 0, 0, none⟩ none none none
      none 1 39 2024 "2024-01-01" none).2.2.2.2.2.2.2.2.1 (fun c => rfl),
   (claim_c6_cache_policy c6ApiOK [] [] ⟨2024, 1, 1, 0, 0, 0, 0, none⟩ none none none
      none 1 39 2024 "2024-01-01" none).2.2.2.2.2.2.2.1⟩

/-- C2 (amended): for every non-empty league filter string outside the
configured five keys, `get_matches` returns the structured error object (a
non-empty message, no count, empty match list), makes no upstream call,
performs no cache write and leaves the cache unchanged.  (The empty string is
falsy in Python and bypasses the validation — see the counterexample.) -/
theorem claim_c2_invalid_league_amended (api : FCall → Option FResp) (now : DateTime)
    (cache : Top5LeaguesService.TCache) (date : Option String) (league : String)
    (days_ahead : Nat) (h1 : league ≠ "")
    (h2 : Top5LeaguesService.LEAGUE_IDS.lookup league = none) :
    Top5LeaguesService.get_matches api now cache date (some league) days_ahead =
      ⟨⟨some Top5LeaguesService.invalidLeagueMsg, none, []⟩, cache, [], []⟩ ∧
    Top5LeaguesService.invalidLeagueMsg ≠ "" := by
  constructor
  · unfold Top5LeaguesService.get_matches
    dsimp only
    rw [if_pos]
    simp [h1, h2]
  · decide

/-- C2 witness: the spec's own example filter "esports". -/
theorem claim_c2_witness :
    Top5LeaguesService.get_matches (fun _ => none) ⟨2024, 1, 1, 0, 0, 0, 0, none⟩ []
        none (some "esports") 7 =
      ⟨⟨some Top5LeaguesService.invalidLeagueMsg, none, []⟩, [], [], []⟩ ∧
    Top5LeaguesService.invalidLeagueMsg ≠ "" :=
  claim_c2_invalid_league_amended (fun _ => none) ⟨2024, 1, 1, 0, 0, 0, 0, none⟩ []
    none "esports" 7 (by decide) (by decide)

/-- C2 counterexample: the empty string is a league filter outside the
configured keys, yet (being falsy in Python) it skips validation: the call
returns no error and issues five upstream fetches. -/
theorem claim_c2_counterexample :
    (Top5LeaguesService.get_matches (fun _ => some ⟨true, some [], none⟩)
      ⟨2024, 1, 1, 0, 0, 0, 0, none⟩ [] (some "2024-01-01") (some "") 7).res.error = none ∧
    (Top5LeaguesService.get_matches (fun _ => some ⟨true, some [], none⟩)
      ⟨2024, 1, 1, 0, 0, 0, 0, none⟩ [] (some "2024-01-01") (some "") 7).calls.length = 5 ∧
    Top5LeaguesService.LEAGUE_IDS.lookup "" = none :=
  ⟨by decide, by decide, by decide⟩

theorem sorted_fetch_matches_for_date (api : FCall → Option FResp) (now : DateTime)
    (cache : Top5LeaguesService.TCache) (date : String) (league : Option String) :
    List.Pairwise kickLe
      (Top5LeaguesService.fetch_matches_for_date api now cache date league).res :=
  List.sorted_insertionSort kickLe _

theorem rangeDays_each_sorted (api : FCall → Option FResp) (now : DateTime)
    (league : Option String) :
    ∀ (k i : Nat) (cache : Top5LeaguesService.TCache),
      ∀ l ∈ (Top5LeaguesService.rangeDays api now league i k cache).dayLists,
        List.Pairwise kickLe l := by
  intro k
  induction k with
  | zero => intro i cache l hl; simp [Top5LeaguesService.rangeDays] at hl
  | succ k ih =>
    intro i cache l hl
    simp only [Top5LeaguesService.rangeDays] at hl
    rw [List.mem_cons] at hl
    rcases hl with rfl | hl
    · exact sorted_fetch_matches_for_date api now cache _ league
    · exact ih _ _ l hl

/-- C1 (amended): date queries through `get_matches` always return a list
sorted ascending by `kickoff.utc` (the sort runs after the per-league loop);
range queries concatenate the per-day sorted lists in day order with **no**
final sort, so the result is sorted exactly when consecutive days' lists are
compatible — i.e. when every match of an earlier day's list has `kickoff.utc`
lexicographically ≤ every match of a later day's list (which holds when
upstream only returns fixtures dated on the queried day, but not for arbitrary
upstream data — see the counterexample). -/
theorem claim_c1_sort_order_amended (api : FCall → Option FResp) (now : DateTime)
    (cache : Top5LeaguesService.TCache) :
    (∀ (date : String) (league : Option String) (days_ahead : Nat), date ≠ "" →
      List.Pairwise kickLe
        (Top5LeaguesService.get_matches api now cache (some date) league
          days_ahead).res.«matches») ∧
    (∀ (days_ahead : Nat) (league : Option String),
      List.Pairwise (fun l1 l2 => ∀ x ∈ l1, ∀ y ∈ l2, kickLe x y)
        (Top5LeaguesService.rangeDays api now league 0 days_ahead cache).dayLists →
      List.Pairwise kickLe
        (Top5LeaguesService.get_matches api now cache none league
          days_ahead).res.«matches») := by
  constructor
  · intro date league days_ahead hd
    unfold Top5LeaguesService.get_matches
    dsimp only
    split
    · exact List.Pairwise.nil
    · exact sorted_fetch_matches_for_date api now cache date league
  · intro days_ahead league hchain
    unfold Top5LeaguesService.get_matches
    dsimp only
    split
    · exact List.Pairwise.nil
    · unfold Top5LeaguesService.fetch_matches_for_range
      dsimp only
      rw [List.pairwise_flatten]
      exact ⟨fun l hl => rangeDays_each_sorted api now league days_ahead 0 cache l hl, hchain⟩

def c1FixA : RawFixture := { league_id := some 39, fixture_date := some "a" }

def c1FixB : RawFixture := { league_id := some 39, fixture_date := some "b" }

/-- Transport returning a fixture with kickoff string "b" for the day-0 query
and one with kickoff string "a" for the day-1 query. -/
def c1Api : FCall → Option FResp := fun c =>
  if c = ("/fixtures",
      [("league", PVal.n 39), ("season", PVal.n 2023), ("date", PVal.s "2024-01-01")]) then
    some ⟨true, some [c1FixB], none⟩
  else if c = ("/fixtures",
      [("league", PVal.n 39), ("season", PVal.n 2023), ("date", PVal.s "2024-01-02")]) then
    some ⟨true, some [c1FixA], none⟩
  else none

/-- C1 counterexample: a two-day range query whose earlier day carries the
lexicographically larger kickoff string returns the unsorted list
["b", "a"]. -/
theorem claim_c1_counterexample :
    ((Top5LeaguesService.get_matches c1Api ⟨2024, 1, 1, 0, 0, 0, 0, none⟩ [] none
      (some "premier_league") 2).res.«matches».map (fun m => m.kickoff.utc)) = ["b", "a"] ∧
    ¬ List.Pairwise kickLe
      (Top5LeaguesService.get_matches c1Api ⟨2024, 1, 1, 0, 0, 0, 0, none⟩ [] none
        (some "premier_league") 2).res.«matches» :=
  ⟨by decide, by decide⟩

/-- Transport returning "a" on day 0 and "b" on day 1 (compatible days). -/
def c1ApiGood : FCall → Option FResp := fun c =>
  if c = ("/fixtures",
      [("league", PVal.n 39), ("season", PVal.n 2023), ("date", PVal.s "2024-01-01")]) then
    some ⟨true, some [c1FixA], none⟩
  else if c = ("/fixtures",
      [("league", PVal.n 39), ("season", PVal.n 2023), ("date", PVal.s "2024-01-02")]) then
    some ⟨true, some [c1FixB], none⟩
  else none

/-- C1 witness: a date query is sorted, and a range query over compatible days
is sorted. -/
theorem claim_c1_witness :
    List.Pairwise kickLe
      (Top5LeaguesService.get_matches c1ApiGood ⟨2024, 1, 1, 0, 0, 0, 0, none⟩ []
        (some "2024-01-01") (some "premier_league") 7).res.«matches» ∧
    List.Pairwise kickLe
      (Top5LeaguesService.get_matches c1ApiGood ⟨2024, 1, 1, 0, 0, 0, 0, none⟩ [] none
        (some "premier_league") 2).res.«matches» :=
  ⟨(claim_c1_sort_order_amended c1ApiGood ⟨2024, 1, 1, 0, 0, 0, 0, none⟩ []).1
      "2024-01-01" (some "premier_league") 7 (by decide),
   (claim_c1_sort_order_amended c1ApiGood ⟨2024, 1, 1, 0, 0, 0, 0, none⟩ []).2
      2 (some "premier_league") (by decide)⟩

theorem format_match_utc {m : PLRawMatch} {r : PLMatchOut}
    (h : PremierLeagueAPI.format_match m = some r) :
    r.kickoff.utc = m.date.getD "" := by
  unfold PremierLeagueAPI.format_match at h
  dsimp only at h
  split at h
  · exact Option.noConfusion h
  · cases h
    rfl

/-- Unfolding of a successful `_filter_upcoming_matches` loop body: the raw
match was not completed, its date parsed, the parse lies in the window and the
formatter accepted it. -/
theorem processMatch_spec {now cutoff : DateTime} {raw : PLRawMatch} {m : PLMatchOut}
    (h : PremierLeagueAPI.processMatch now cutoff raw = some m) :
    ¬(raw.status_state = some "post" ∨ raw.status_detail = some "FT") ∧
    ∃ d, fromIsoFormat (replaceZ (raw.date.getD "")) = some d ∧
      wallMicros now ≤ wallMicros d ∧ wallMicros d ≤ wallMicros cutoff ∧
      PremierLeagueAPI.format_match raw = some m := by
  unfold PremierLeagueAPI.processMatch at h
  dsimp only at h
  split at h
  · exact Option.noConfusion h
  · rename_i hskip
    split at h
    · exact Option.noConfusion h
    · split at h
      · exact Option.noConfusion h
      · rename_i md hparse
        split at h
        · exact Option.noConfusion h
        · rename_i hlt
          split at h
          · exact Option.noConfusion h
          · rename_i hgt
            exact ⟨hskip, md, hparse, Nat.le_of_not_lt hlt, Nat.le_of_not_lt hgt, h⟩

/-- C10 (amended): on a cold cache (no entry under the
`pl_upcoming_{year}_{month}_{days}` key), every match returned by
`get_upcoming_matches` comes from a raw schedule entry that is not completed
(state not "post", detail not "FT") and whose kickoff string — preserved as
`kickoff.utc` — parses to a wall clock inside `[now, now + days_ahead]`; raw
entries with a missing or unparseable date simply contribute nothing (the
functions are total).  On a cache hit the call returns the up-to-one-hour-old
cached list unchanged, so a returned kickoff can precede the current call's
`now` — see the counterexample. -/
theorem claim_c10_upcoming_window (plApi : Nat → Nat → Option Sched) (now : DateTime)
    (cache : List (String × PremierLeagueAPI.PLResult)) (days_ahead : Nat)
    (hmiss : cache.lookup ("pl_upcoming_" ++ toString now.year ++ "_" ++ toString now.month
      ++ "_" ++ toString days_ahead) = none) :
    ∀ m ∈ (PremierLeagueAPI.get_upcoming_matches plApi now cache days_ahead).res.«matches»,
      ∃ sched, PremierLeagueAPI.uplSchedule plApi now = some sched ∧
      ∃ k dayList raw, (k, some dayList) ∈ sched ∧ raw ∈ dayList ∧
        PremierLeagueAPI.format_match raw = some m ∧
        ¬(raw.status_state = some "post" ∨ raw.status_detail = some "FT") ∧
        ∃ d, fromIsoFormat (replaceZ m.kickoff.utc) = some d ∧
          wallMicros now ≤ wallMicros d ∧
          wallMicros d ≤ wallMicros (addDays now days_ahead) := by
  intro m hm
  unfold PremierLeagueAPI.get_upcoming_matches at hm
  rcases hs : PremierLeagueAPI.uplSchedule plApi now with _ | sched
  · simp only [hmiss, hs] at hm
    simp at hm
  · simp only [hmiss, hs] at hm
    refine ⟨sched, rfl, ?_⟩
    unfold PremierLeagueAPI.filter_upcoming_matches sortByKickPL at hm
    rw [List.Perm.mem_iff (List.perm_insertionSort kickLePL _)] at hm
    rw [List.mem_flatten] at hm
    obtain ⟨sub, hsub, hmsub⟩ := hm
    rw [List.mem_map] at hsub
    obtain ⟨kv, hkv, hkveq⟩ := hsub
    rcases kv with ⟨k, vv⟩
    rcases vv with _ | dayList
    · rw [← hkveq] at hmsub
      simp at hmsub
    · rw [← hkveq] at hmsub
      dsimp only at hmsub
      rw [List.mem_filterMap] at hmsub
      obtain ⟨raw, hraw, hproc⟩ := hmsub
      obtain ⟨hskip, d, hparse, hge, hle, hfmt⟩ := processMatch_spec hproc
      refine ⟨k, dayList, raw, hkv, hraw, hfmt, hskip, d, ?_, hge, hle⟩
      rw [format_match_utc hfmt]
      exact hparse

def c10Raw : PLRawMatch :=
  { id := some 10
    date := some "2024-01-02T15:00:00Z"
    teams := [⟨some 1, some "Alpha", none, none, false⟩, ⟨some 2, some "Beta", none, none, true⟩] }

def c10Post : PLRawMatch :=
  { id := some 11, date := some "2024-01-02T15:00:00Z", status_state := some "post" }

def c10Bad : PLRawMatch := { id := some 12, date := some "zzz" }

/-- Transport serving a January 2024 schedule with one upcoming, one
completed and one unparseable entry. -/
def c10Api : Nat → Nat → Option Sched := fun y mo =>
  if y = 2024 ∧ mo = 1 then some [("2024-01-02", some [c10Raw, c10Post, c10Bad])]
  else none

/-- C10 witness: on the concrete schedule the cold-cache window property holds
and exactly the one upcoming match survives. -/
theorem claim_c10_witness :
    (([] : List (String × PremierLeagueAPI.PLResult)).lookup
      ("pl_upcoming_" ++ toString (2024 : Nat) ++ "_" ++ toString (1 : Nat)
        ++ "_" ++ toString (7 : Nat)) = none) ∧
    (PremierLeagueAPI.get_upcoming_matches c10Api ⟨2024, 1, 1, 12, 0, 0, 0, none⟩ []
      7).res.count = 1 ∧
    ∀ m ∈ (PremierLeagueAPI.get_upcoming_matches c10Api ⟨2024, 1, 1, 12, 0, 0, 0, none⟩ []
        7).res.«matches»,
      ∃ sched, PremierLeagueAPI.uplSchedule c10Api ⟨2024, 1, 1, 12, 0, 0, 0, none⟩ =
          some sched ∧
      ∃ k dayList raw, (k, some dayList) ∈ sched ∧ raw ∈ dayList ∧
        PremierLeagueAPI.format_match raw = some m ∧
        ¬(raw.status_state = some "post" ∨ raw.status_detail = some "FT") ∧
        ∃ d, fromIsoFormat (replaceZ m.kickoff.utc) = some d ∧
          wallMicros ⟨2024, 1, 1, 12, 0, 0, 0, none⟩ ≤ wallMicros d ∧
          wallMicros d ≤ wallMicros (addDays ⟨2024, 1, 1, 12, 0, 0, 0, none⟩ 7) :=
  ⟨rfl, by decide,
   claim_c10_upcoming_window c10Api ⟨2024, 1, 1, 12, 0, 0, 0, none⟩ [] 7 rfl⟩

def c10StaleRaw : PLRawMatch :=
  { id := some 20
    date := some "2024-01-01T12:30:00Z"
    teams := [⟨some 3, some "Gamma", none, none, false⟩, ⟨some 4, some "Delta", none, none, true⟩] }

/-- Transport serving a January 2024 schedule with one match at 12:30 UTC. -/
def c10StaleApi : Nat → Nat → Option Sched := fun y mo =>
  if y = 2024 ∧ mo = 1 then some [("2024-01-01", some [c10StaleRaw])] else none

/-- The cache after a first `get_upcoming_matches` call at 12:00 on
2024-01-01: it holds the computed result under `pl_upcoming_2024_1_7` with a
one-hour TTL. -/
def c10WarmCache : List (String × PremierLeagueAPI.PLResult) :=
  (PremierLeagueAPI.get_upcoming_matches c10StaleApi ⟨2024, 1, 1, 12, 0, 0, 0, none⟩ [] 7).cache

/-- C10 counterexample: the claim's window property is stated for every call,
but the result is cached for an hour under a key that carries only the year,
month and window, not the time of day.  A second call at 12:59 hits the cache
written at 12:00 and returns its list unchanged; that list still contains the
match kicking off at 12:30, whose parsed wall clock precedes the second
call's `now`, i.e. lies outside the claimed window `[now, now + N days]`. -/
theorem claim_c10_counterexample :
    ((PremierLeagueAPI.get_upcoming_matches c10StaleApi ⟨2024, 1, 1, 12, 59, 0, 0, none⟩
      c10WarmCache 7).res.«matches».map (fun m => m.kickoff.utc)) =
      ["2024-01-01T12:30:00Z"] ∧
    fromIsoFormat (replaceZ "2024-01-01T12:30:00Z") =
      some ⟨2024, 1, 1, 12, 30, 0, 0, some 0⟩ ∧
    wallMicros ⟨2024, 1, 1, 12, 30, 0, 0, some 0⟩ <
      wallMicros ⟨2024, 1, 1, 12, 59, 0, 0, none⟩ :=
  ⟨by decide, by decide, by decide⟩

end W2W
